import Mathlib

/-!
Verification of the renthub backend core: identity and authorization layer
plus the rating-aggregation subsystem.  The definitions below are a shallow
embedding of the route handlers in the two server variants of the repository
(the variant with reviews, called part zero below, and the server.js
variant).  MongoDB documents become Lean structures, the document store
becomes an explicit state record, and each route handler becomes a function
from state and request data to a new state and a response.  The external
collaborators (bcrypt hashing and comparison, jwt signing and verification)
are passed in as function parameters, as the spec treats them as external
primitives.
-/

namespace RentHub

/-- Identity record, from the user schema of the part zero variant: name,
email, hashed password, phone, profile fields, the derived rating aggregate
(averageRating, totalReviews) and the listing counter.  Ratings are modelled
as rationals since the source stores JavaScript numbers. -/
structure User where
  id : Nat
  name : String
  email : String
  password : String
  phone : String
  bio : String := ""
  profilePic : String := ""
  averageRating : Rat := 0
  totalReviews : Nat := 0
  totalItemsListed : Int := 0
  deriving Repr, DecidableEq

/-- Listing record, from the item schema: owning user, descriptive fields,
availability enum, price and photo. -/
structure Item where
  id : Nat
  userId : Nat
  name : String
  description : String
  category : String
  availability : String := "available"
  price : Rat
  photo : String := ""
  deriving Repr, DecidableEq

/-- Review record, from the review schema: target item, seller (owner of the
item at review time), reviewer, integer rating and optional comment. -/
structure Review where
  id : Nat
  itemId : Nat
  sellerId : Nat
  buyerId : Nat
  rating : Int
  comment : String := ""
  deriving Repr, DecidableEq

/-- The persistent store: the users, items and reviews collections, plus a
counter standing in for MongoDB object id generation. -/
structure DB where
  users : List User
  items : List Item
  reviews : List Review
  nextId : Nat
  deriving Repr, DecidableEq

/-- Public projection of a user as returned by the auth routes. -/
structure PubUser where
  id : Nat
  name : String
  email : String
  phone : String
  deriving Repr, DecidableEq

/-- An HTTP response: status code, message, and the token and user object
that the auth routes attach on success. -/
structure Resp where
  status : Nat
  message : String
  token : Option String := none
  user : Option PubUser := none
  deriving Repr, DecidableEq

/-- The identity claims embedded in a bearer token: user id and email, as
signed by both signup and login handlers. -/
structure Claims where
  userId : Nat
  email : String
  deriving Repr, DecidableEq

/-! ### Rating aggregation (part zero, POST /api/items/:id/reviews) -/

/-- Rounding to one decimal place, the effect of avgRating.toFixed(1) in the
handler (the resulting string is cast back to a number by the schema).  For
the nonnegative averages that arise here, toFixed rounds half away from
zero, which agrees with round. -/
def toFixed1 (q : Rat) : Rat := (round (10 * q) : Int) / 10

/-- The full review set of a seller: Review.find with a sellerId filter. -/
def sellerReviews (rs : List Review) (s : Nat) : List Review :=
  rs.filter (fun r => r.sellerId == s)

/-- Sum of the ratings of a review list, the reduce step of the handler. -/
def ratingSum (rs : List Review) : Rat :=
  (rs.map (fun r => (r.rating : Rat))).sum

/-- Arithmetic mean of the ratings: sum divided by length. -/
def avgOf (rs : List Review) : Rat := ratingSum rs / (rs.length : Rat)

/-- Persisting a new review document: newReview.save(). -/
def reviewSave (db : DB) (rv : Review) : DB :=
  { db with reviews := db.reviews ++ [rv], nextId := db.nextId + 1 }

/-- The aggregate read step of the handler: Review.find({ sellerId }). -/
def aggRead (db : DB) (s : Nat) : List Review := sellerReviews db.reviews s

/-- The aggregate write step: User.findByIdAndUpdate with the rounded
average of the snapshot and its length. -/
def aggWrite (db : DB) (s : Nat) (snap : List Review) : DB :=
  { db with
    users := db.users.map (fun u =>
      if u.id = s then
        { u with averageRating := toFixed1 (avgOf snap), totalReviews := snap.length }
      else u) }

/-- Failure injection points for the review handler: the review save throwing
(step 2 of the spec algorithm), or the aggregate read-modify-write throwing
(steps 3 and 4).  Either exception lands in the catch block of the handler. -/
inductive StorageFault where
  | noFault
  | saveFails
  | aggFails
  deriving Repr, DecidableEq

/-- The review creation handler of the part zero variant, POST
/api/items/:id/reviews, with a failure-injection parameter.  Order of the
source: find the item (404 when absent), reject self review (400), save the
new review (the schema bounds 1 to 5 on rating make the save throw a
validation error for out-of-range ratings, which the catch block maps to
500), then recompute the aggregate of the full review set of the seller and
write it onto the user record. -/
def createReviewF (fault : StorageFault) (db : DB) (reqUserId : Nat)
    (itemIdParam : Nat) (rating : Int) (comment : String) : DB × Resp :=
  match db.items.find? (fun it => it.id == itemIdParam) with
  | none => (db, { status := 404, message := "Item not found" })
  | some item =>
    if item.userId = reqUserId then
      (db, { status := 400, message := "Cannot review your own item" })
    else if rating < 1 ∨ 5 < rating then
      (db, { status := 500, message := "Error creating review" })
    else if fault = StorageFault.saveFails then
      (db, { status := 500, message := "Error creating review" })
    else
      let newReview : Review :=
        { id := db.nextId, itemId := itemIdParam, sellerId := item.userId,
          buyerId := reqUserId, rating := rating, comment := comment }
      let db1 := reviewSave db newReview
      if fault = StorageFault.aggFails then
        (db1, { status := 500, message := "Error creating review" })
      else
        let allReviews := aggRead db1 item.userId
        (aggWrite db1 item.userId allReviews,
         { status := 201, message := "Review submitted successfully" })

/-- The review creation handler on the fault-free path. -/
def createReview (db : DB) (reqUserId itemIdParam : Nat) (rating : Int)
    (comment : String) : DB × Resp :=
  createReviewF StorageFault.noFault db reqUserId itemIdParam rating comment

/-- A review request: the authenticated requester, the target item, the
rating and the comment. -/
structure ReviewReq where
  uid : Nat
  iid : Nat
  rating : Int
  comment : String
  deriving Repr, DecidableEq

/-- A sequence of sequential, non-overlapping review creations. -/
def applyReviews (db : DB) : List ReviewReq → DB
  | [] => db
  | op :: rest => applyReviews (createReview db op.uid op.iid op.rating op.comment).1 rest

/-- A user record carries exactly the from-scratch recompute of its rating
aggregate over a review set: the rounded mean and the count of the reviews
whose sellerId is the user id. -/
def userAggCorrect (rs : List Review) (u : User) : Prop :=
  u.averageRating = toFixed1 (avgOf (sellerReviews rs u.id)) ∧
    u.totalReviews = (sellerReviews rs u.id).length

/-- The derivation invariant: every persisted user aggregate matches the
from-scratch recompute over the full review set. -/
def aggConsistent (db : DB) : Prop :=
  ∀ u ∈ db.users, userAggCorrect db.reviews u

theorem sellerReviews_append (rs : List Review) (rv : Review) (s : Nat) :
    sellerReviews (rs ++ [rv]) s =
      sellerReviews rs s ++ (if rv.sellerId = s then [rv] else []) := by
  by_cases h : rv.sellerId = s <;> simp [sellerReviews, List.filter_append, h]

theorem userAggCorrect_append_ne (rs : List Review) (rv : Review) (u : User)
    (hne : rv.sellerId ≠ u.id) (h : userAggCorrect rs u) :
    userAggCorrect (rs ++ [rv]) u := by
  unfold userAggCorrect at h ⊢
  rw [sellerReviews_append, if_neg hne, List.append_nil]
  exact h

theorem aggWrite_fresh (db : DB) (s : Nat)
    (h : ∀ u ∈ db.users, u.id ≠ s → userAggCorrect db.reviews u) :
    aggConsistent (aggWrite db s (aggRead db s)) := by
  intro u' hu'
  simp only [aggWrite, List.mem_map] at hu'
  rcases hu' with ⟨u, hu, hmap⟩
  by_cases hid : u.id = s
  · rw [if_pos hid] at hmap
    subst hmap
    constructor
    · simp [userAggCorrect, aggWrite, aggRead, hid]
    · simp [userAggCorrect, aggWrite, aggRead, hid]
  · rw [if_neg hid] at hmap
    subst hmap
    simpa [aggWrite, userAggCorrect] using h u hu hid

theorem createReview_preserves (db : DB) (uid iid : Nat) (rating : Int) (c : String)
    (h : aggConsistent db) :
    aggConsistent (createReview db uid iid rating c).1 := by
  unfold createReview createReviewF
  split
  · exact h
  next item hfind =>
    by_cases hself : item.userId = uid
    · simp only [if_pos hself]; exact h
    · simp only [if_neg hself]
      by_cases hbad : rating < 1 ∨ 5 < rating
      · simp only [if_pos hbad]; exact h
      · simp only [if_neg hbad]
        have h1 : ¬(StorageFault.noFault = StorageFault.saveFails) := by simp
        have h2 : ¬(StorageFault.noFault = StorageFault.aggFails) := by simp
        simp only [if_neg h1, if_neg h2]
        apply aggWrite_fresh
        intro u hu hne
        simp only [reviewSave] at hu ⊢
        exact userAggCorrect_append_ne _ _ _ (fun hh => hne hh.symm) (h u hu)

theorem applyReviews_aggConsistent (db : DB) (ops : List ReviewReq)
    (h : aggConsistent db) : aggConsistent (applyReviews db ops) := by
  induction ops generalizing db with
  | nil => exact h
  | cons op rest ih => exact ih _ (createReview_preserves _ _ _ _ _ h)

/-! ### Example store used by witnesses and counterexamples -/

/-- Example user owning the example listing. -/
def egUser1 : User := { id := 1, name := "Alice", email := "a@x.com", password := "h1", phone := "1" }

/-- Example user acting as a reviewer. -/
def egUser2 : User := { id := 2, name := "Bob", email := "b@x.com", password := "h2", phone := "2" }

/-- A second example reviewer. -/
def egUser3 : User := { id := 3, name := "Cara", email := "c@x.com", password := "h3", phone := "3" }

/-- Example listing owned by the first user. -/
def egItem : Item := { id := 10, userId := 1, name := "Camera", description := "d", category := "c", price := 5 }

/-- Example store: three users, one listing, no reviews yet. -/
def egDB : DB := { users := [egUser1, egUser2, egUser3], items := [egItem], reviews := [], nextId := 100 }

/-- Claim C1: after any sequence of sequential (non-overlapping) review
creations, every persisted user aggregate satisfies averageRating equal to
the mean of the ratings of the reviews whose sellerId is the user id rounded
to one decimal, and totalReviews equal to their count; that is, the
handler recompute always matches a from-scratch recompute over the full
review set, provided the starting store already satisfied this derivation
law. -/
theorem C1_aggregate_matches_recompute (db : DB) (ops : List ReviewReq)
    (h : aggConsistent db) : aggConsistent (applyReviews db ops) :=
  applyReviews_aggConsistent db ops h

/-- Witness for C1 at a concrete store and a concrete two-review sequence. -/
theorem C1_aggregate_matches_recompute_witness :
    aggConsistent egDB ∧
      aggConsistent (applyReviews egDB [⟨2, 10, 4, ""⟩, ⟨3, 10, 5, ""⟩]) :=
  ⟨by simp [aggConsistent, egDB, egUser1, egUser2, egUser3, userAggCorrect,
      sellerReviews, toFixed1, avgOf, ratingSum],
   C1_aggregate_matches_recompute egDB _ (by
     simp [aggConsistent, egDB, egUser1, egUser2, egUser3, userAggCorrect,
       sellerReviews, toFixed1, avgOf, ratingSum])⟩

/-- Claim C3: a review submission by the owner of the listing is rejected
with status 400 and the store is unchanged, before any persistence. -/
theorem C3_self_review_rejected (db : DB) (uid iid : Nat) (rating : Int)
    (c : String) (item : Item)
    (hfind : db.items.find? (fun it => it.id == iid) = some item)
    (hown : item.userId = uid) :
    createReview db uid iid rating c =
      (db, { status := 400, message := "Cannot review your own item" }) := by
  unfold createReview createReviewF
  simp only [hfind]
  rw [if_pos hown]

/-- Witness for C3: the owner of the example listing reviewing it. -/
theorem C3_self_review_rejected_witness :
    createReview egDB 1 10 5 ("") =
      (egDB, { status := 400, message := "Cannot review your own item" }) :=
  C3_self_review_rejected egDB 1 10 5 ("") egItem (by decide) (by decide)

/-- Claim C2 counterexample: an authenticated review with rating 6 on an
existing listing of another user is answered with status 500, because the
handler performs no rating check of its own and the schema validation error
raised by the save lands in the catch block; the claim states 400. -/
theorem C2_invalid_rating_cex :
    (createReview egDB 2 10 6 ("")).2.status = 500 ∧
      ¬(createReview egDB 2 10 6 ("")).2.status = 400 := by
  decide

/-- Claim C2 as amended: a review whose rating lies outside one to five on an
existing listing of another user fails with status 500 (message from the
catch block) and the store is unchanged, so no review is persisted and the
aggregate of the seller is untouched. -/
theorem C2_invalid_rating_rejected (db : DB) (uid iid : Nat) (rating : Int)
    (c : String) (item : Item)
    (hfind : db.items.find? (fun it => it.id == iid) = some item)
    (hnown : item.userId ≠ uid)
    (hbad : rating < 1 ∨ 5 < rating) :
    createReview db uid iid rating c =
      (db, { status := 500, message := "Error creating review" }) := by
  unfold createReview createReviewF
  simp only [hfind]
  rw [if_neg hnown, if_pos hbad]

/-- Witness for the amended C2 at rating 6. -/
theorem C2_invalid_rating_rejected_witness :
    createReview egDB 2 10 6 ("") =
      (egDB, { status := 500, message := "Error creating review" }) :=
  C2_invalid_rating_rejected egDB 2 10 6 ("") egItem (by decide) (by decide) (by decide)

/-- Claim C8: intra-request ordering of the review handler.  When the review
save itself fails, the handler aborts with 500 and the store is completely
unchanged, so no aggregate read or write happens for a review that was never
written.  When instead the aggregate read-modify-write fails, the review is
already persisted and the user records are untouched (stale aggregate). -/
theorem C8_save_precedes_aggregate (db : DB) (uid iid : Nat) (rating : Int)
    (c : String) (item : Item)
    (hfind : db.items.find? (fun it => it.id == iid) = some item)
    (hnown : item.userId ≠ uid) :
    createReviewF StorageFault.saveFails db uid iid rating c =
      (db, { status := 500, message := "Error creating review" }) ∧
    (1 ≤ rating → rating ≤ 5 →
      (createReviewF StorageFault.aggFails db uid iid rating c).1.users = db.users ∧
      (createReviewF StorageFault.aggFails db uid iid rating c).1.reviews =
        db.reviews ++ [{ id := db.nextId, itemId := iid, sellerId := item.userId,
                         buyerId := uid, rating := rating, comment := c }] ∧
      (createReviewF StorageFault.aggFails db uid iid rating c).2.status = 500) := by
  unfold createReviewF
  simp only [hfind]
  constructor
  · by_cases hbad : rating < 1 ∨ 5 < rating
    · simp [hnown, hbad]
    · simp [hnown, hbad]
  · intro h1 h2
    have hbad : ¬(rating < 1 ∨ 5 < rating) := by omega
    simp [hnown, hbad, reviewSave]

/-- Witness for C8 at the example store with rating 4. -/
theorem C8_save_precedes_aggregate_witness :
    createReviewF StorageFault.saveFails egDB 2 10 4 ("") =
      (egDB, { status := 500, message := "Error creating review" }) ∧
    (createReviewF StorageFault.aggFails egDB 2 10 4 ("")).1.users = egDB.users ∧
    (createReviewF StorageFault.aggFails egDB 2 10 4 ("")).1.reviews =
      egDB.reviews ++ [{ id := 100, itemId := 10, sellerId := 1, buyerId := 2,
                         rating := 4, comment := "" }] ∧
    (createReviewF StorageFault.aggFails egDB 2 10 4 ("")).2.status = 500 := by
  have h := C8_save_precedes_aggregate egDB 2 10 4 ("") egItem (by decide) (by decide)
  exact ⟨h.1, h.2 (by decide) (by decide)⟩

/-- Claim C10: because the review is persisted before the full-set read, the
review set read back for the seller contains at least the new review, so the
division in the average is never over an empty set in sequential runs. -/
theorem C10_aggregate_divisor_positive (db : DB) (rv : Review) (s : Nat)
    (h : rv.sellerId = s) : 0 < (aggRead (reviewSave db rv) s).length := by
  simp [aggRead, reviewSave, sellerReviews, List.filter_append, h]

/-- Witness for C10: the first review for the example seller. -/
theorem C10_aggregate_divisor_positive_witness :
    0 < (aggRead (reviewSave egDB
      { id := 100, itemId := 10, sellerId := 1, buyerId := 2, rating := 4 }) 1).length :=
  C10_aggregate_divisor_positive egDB
    { id := 100, itemId := 10, sellerId := 1, buyerId := 2, rating := 4 } 1 (by decide)

/-! ### Concurrency: two overlapping review submissions (claim C9).  Each
request performs three store operations in order: the review save, the
full-set read, and the aggregate write.  Under concurrent execution these
may interleave arbitrarily; the handler has no per-seller serialization and
no store-side atomicity. -/

/-- First concurrent review: rating 4 for the seller of the example item. -/
def rv4 : Review := { id := 100, itemId := 10, sellerId := 1, buyerId := 2, rating := 4 }

/-- Second concurrent review: rating 5 for the same seller. -/
def rv5 : Review := { id := 101, itemId := 10, sellerId := 1, buyerId := 3, rating := 5 }

/-- The store after the interleaving save one, read one, save two, read two,
write two, write one: request one reads before the second save and writes
last, so its stale snapshot wins. -/
def racedDB : DB :=
  let d1 := reviewSave egDB rv4
  let snap1 := aggRead d1 1
  let d2 := reviewSave d1 rv5
  let snap2 := aggRead d2 1
  let d3 := aggWrite d2 1 snap2
  aggWrite d3 1 snap1

/-- The store after the two submissions run without overlap. -/
def serialDB : DB := (createReview (createReview egDB 2 10 4 ("")).1 3 10 5 ("")).1

/-- Claim C9: the final aggregate of two overlapping submissions with
ratings 4 and 5 is required to be average 4.5 with two reviews for every
interleaving; the interleaving above instead leaves average 4 and a single
counted review, while the non-overlapping order does give 4.5 and 2.  The
recompute is an unserialized read-modify-write. -/
theorem C9_unserialized_race_drops_review :
    racedDB.users.find? (fun u => u.id == 1) =
      some { egUser1 with averageRating := 4, totalReviews := 1 } ∧
    serialDB.users.find? (fun u => u.id == 1) =
      some { egUser1 with averageRating := 9/2, totalReviews := 2 } := by
  constructor
  · simp [racedDB, egDB, egUser1, egUser2, egUser3, egItem, rv4, rv5,
      reviewSave, aggRead, aggWrite, sellerReviews, toFixed1, avgOf, ratingSum]
    norm_num
  · simp [serialDB, createReview, createReviewF, egDB, egUser1, egUser2, egUser3, egItem,
      reviewSave, aggRead, aggWrite, sellerReviews, toFixed1, avgOf, ratingSum]
    norm_num

/-! ### Authentication middleware (part zero authenticateToken, server.js
verifyToken).  jwt.verify is the external signing primitive, passed in as a
function from token to optional claims (none models a verification error:
malformed, bad signature or expired). -/

/-- Splitting a character list on single spaces: the effect of the
authHeader.split call on a space character in both middleware variants. -/
def splitSpaces (l : List Char) (acc : List Char) : List (List Char) :=
  match l with
  | [] => [acc.reverse]
  | ch :: rest =>
    if ch = ' ' then acc.reverse :: splitSpaces rest []
    else splitSpaces rest (ch :: acc)

/-- Token extraction: the part at index one after splitting the
Authorization header on spaces; a missing header, a missing part or an
empty part all count as no token (JavaScript truthiness). -/
def extractBearer (authHeader : Option String) : Option String :=
  match authHeader with
  | none => none
  | some h =>
    match (splitSpaces h.data []).get? 1 with
    | none => none
    | some t => if t = [] then none else some (String.mk t)

/-- The authentication middleware of the part zero variant: 401 when no
token is present, 403 when jwt.verify rejects the token, otherwise the
decoded claims are attached to the request. -/
def authenticateToken (verify : String → Option Claims)
    (authHeader : Option String) : Except Resp Claims :=
  match extractBearer authHeader with
  | none => Except.error { status := 401, message := "Access token required" }
  | some tok =>
    match verify tok with
    | none => Except.error { status := 403, message := "Invalid or expired token" }
    | some c => Except.ok c

/-- The authentication middleware of the server.js variant: 401 in both
failure cases (the missing-token return and the catch block around
jwt.verify). -/
def verifyToken (verify : String → Option Claims)
    (authHeader : Option String) : Except Resp Claims :=
  match extractBearer authHeader with
  | none => Except.error { status := 401, message := "No token provided. Please login." }
  | some tok =>
    match verify tok with
    | none =>
      Except.error { status := 401, message := "Invalid or expired token. Please login again." }
    | some c => Except.ok c

/-- A protected route: the middleware runs first and a failure is returned
as the response with the store untouched; only on success is the handler
invoked, with the resolved claims. -/
def withAuth (auth : Option String → Except Resp Claims)
    (authHeader : Option String) (handler : Claims → DB → DB × Resp)
    (db : DB) : DB × Resp :=
  match auth authHeader with
  | Except.error r => (db, r)
  | Except.ok c => handler c db

/-- A trivial protected handler used by witnesses. -/
def egHandler : Claims → DB → DB × Resp :=
  fun _ d => (d, { status := 200, message := "ok" })

/-- Claim C5 counterexample: in the part zero middleware a present but
failing token is answered with status 403, not 401 as the claim states. -/
theorem C5_invalid_token_status_cex :
    (withAuth (authenticateToken (fun _ => none)) (some ("Bearer abc"))
        egHandler egDB).2.status = 403 ∧
      ¬(withAuth (authenticateToken (fun _ => none)) (some ("Bearer abc"))
        egHandler egDB).2.status = 401 := by
  decide

/-- Claim C5 as amended: with no bearer token both middleware variants
answer 401 with the store untouched and the handler never runs; with a
token that fails verification the handler still never runs, but the part
zero variant answers 403 while the server.js variant answers 401; with a
token that verifies, both variants run the handler with the resolved
claims attached. -/
theorem C5_auth_middleware (verify : String → Option Claims)
    (authHeader : Option String) (handler : Claims → DB → DB × Resp) (db : DB) :
    (extractBearer authHeader = none →
       withAuth (authenticateToken verify) authHeader handler db =
         (db, { status := 401, message := "Access token required" }) ∧
       withAuth (verifyToken verify) authHeader handler db =
         (db, { status := 401, message := "No token provided. Please login." })) ∧
    (∀ tok, extractBearer authHeader = some tok → verify tok = none →
       withAuth (authenticateToken verify) authHeader handler db =
         (db, { status := 403, message := "Invalid or expired token" }) ∧
       withAuth (verifyToken verify) authHeader handler db =
         (db, { status := 401, message := "Invalid or expired token. Please login again." })) ∧
    (∀ tok c, extractBearer authHeader = some tok → verify tok = some c →
       withAuth (authenticateToken verify) authHeader handler db = handler c db ∧
       withAuth (verifyToken verify) authHeader handler db = handler c db) := by
  refine ⟨fun h => ?_, fun tok h hv => ?_, fun tok c h hv => ?_⟩
  · simp [withAuth, authenticateToken, verifyToken, h]
  · simp [withAuth, authenticateToken, verifyToken, h, hv]
  · simp [withAuth, authenticateToken, verifyToken, h, hv]

/-- Witness for C5: a verifying token reaches the handler with the claims
attached, in both middleware variants. -/
theorem C5_auth_middleware_witness :
    withAuth (authenticateToken (fun _ => some ⟨1, "a@x.com"⟩))
        (some ("Bearer tok")) egHandler egDB = egHandler ⟨1, "a@x.com"⟩ egDB ∧
      withAuth (verifyToken (fun _ => some ⟨1, "a@x.com"⟩))
        (some ("Bearer tok")) egHandler egDB = egHandler ⟨1, "a@x.com"⟩ egDB :=
  (C5_auth_middleware (fun _ => some ⟨1, "a@x.com"⟩) (some ("Bearer tok"))
    egHandler egDB).2.2 ("tok") ⟨1, "a@x.com"⟩ (by decide) rfl

/-! ### Email normalization.  The server.js user schema declares the email
path with lowercase and trim, so the store casts emails (and, by the
default mongoose setter behaviour, query filters on the path) to the
trimmed lowercased form.  The part zero schema declares neither option. -/

/-- ASCII lowercasing of one character, the effect of toLowerCase as applied
by the lowercase schema option: the letters A to Z (codes 65 to 90) are
shifted up by 32, everything else is unchanged. -/
def lowerChar (c : Char) : Char :=
  if 65 ≤ c.toNat ∧ c.toNat ≤ 90 then Char.ofNat (c.toNat + 32) else c

/-- Whitespace test used by the trim schema option: space, tab, line feed
and carriage return. -/
def isSpaceChar (c : Char) : Bool :=
  c.toNat == 32 || c.toNat == 9 || c.toNat == 10 || c.toNat == 13

/-- Trimming leading and trailing whitespace from a character list. -/
def trimList (l : List Char) : List Char :=
  ((l.dropWhile isSpaceChar).reverse.dropWhile isSpaceChar).reverse

/-- The normalized form of an email under the server.js schema: trimmed and
lowercased. -/
def normalizeEmail (e : String) : String :=
  String.mk ((trimList e.data).map lowerChar)

/-- Public projection of a user record as returned by the auth routes. -/
def pubUser (u : User) : PubUser :=
  { id := u.id, name := u.name, email := u.email, phone := u.phone }

/-! ### Login (part zero and server.js variants).  bcrypt.compare and
jwt.sign are the external primitives, passed in as bcompare and sign. -/

/-- POST /api/auth/login of the part zero variant: unknown email and failed
password comparison both answer 400 with one shared message; success
answers 200 with a fresh token over the identity claims and the public user
object. -/
def login_p0 (bcompare : String → String → Bool) (sign : Claims → String)
    (db : DB) (email password : String) : Resp :=
  match db.users.find? (fun u => u.email == email) with
  | none => { status := 400, message := "Invalid email or password" }
  | some user =>
    if bcompare password user.password then
      { status := 200, message := "Login successful",
        token := some (sign ⟨user.id, user.email⟩), user := some (pubUser user) }
    else { status := 400, message := "Invalid email or password" }

/-- POST /api/auth/login of the server.js variant: missing fields answer
400; unknown email and failed password comparison both answer 401 with one
shared message; the email lookup goes through the schema normalization. -/
def login_srv (bcompare : String → String → Bool) (sign : Claims → String)
    (db : DB) (email password : String) : Resp :=
  if email = "" ∨ password = "" then
    { status := 400, message := "Please provide email and password" }
  else
    match db.users.find? (fun u => u.email == normalizeEmail email) with
    | none => { status := 401, message := "Invalid email or password" }
    | some user =>
      if bcompare password user.password then
        { status := 200, message := "Login successful!",
          token := some (sign ⟨user.id, user.email⟩), user := some (pubUser user) }
      else { status := 401, message := "Invalid email or password" }

/-- Claim C6 counterexample: in the server.js variant a login with an email
matching no stored identity is answered with status 401, not 400 as the
claim states. -/
theorem C6_login_status_cex :
    (login_srv (fun _ _ => true) (fun _ => ("t")) egDB ("x@x.com") ("pw")).status = 401 ∧
      ¬(login_srv (fun _ _ => true) (fun _ => ("t")) egDB ("x@x.com") ("pw")).status = 400 := by
  decide

/-- Claim C6 as amended: in both login variants an unknown email and a
failed password comparison produce the same failure shape (one shared
status and message), while correct credentials produce 200 with a token and
the user object; the failure status is 400 in the part zero variant and 401
in the server.js variant. -/
theorem C6_login_behavior (bcompare : String → String → Bool)
    (sign : Claims → String) (db : DB) (email password : String) :
    (db.users.find? (fun u => u.email == email) = none →
       login_p0 bcompare sign db email password =
         { status := 400, message := "Invalid email or password" }) ∧
    (∀ user, db.users.find? (fun u => u.email == email) = some user →
       bcompare password user.password = false →
       login_p0 bcompare sign db email password =
         { status := 400, message := "Invalid email or password" }) ∧
    (∀ user, db.users.find? (fun u => u.email == email) = some user →
       bcompare password user.password = true →
       login_p0 bcompare sign db email password =
         { status := 200, message := "Login successful",
           token := some (sign ⟨user.id, user.email⟩), user := some (pubUser user) }) ∧
    (email ≠ "" → password ≠ "" →
      (db.users.find? (fun u => u.email == normalizeEmail email) = none →
         login_srv bcompare sign db email password =
           { status := 401, message := "Invalid email or password" }) ∧
      (∀ user, db.users.find? (fun u => u.email == normalizeEmail email) = some user →
         bcompare password user.password = false →
         login_srv bcompare sign db email password =
           { status := 401, message := "Invalid email or password" }) ∧
      (∀ user, db.users.find? (fun u => u.email == normalizeEmail email) = some user →
         bcompare password user.password = true →
         login_srv bcompare sign db email password =
           { status := 200, message := "Login successful!",
             token := some (sign ⟨user.id, user.email⟩), user := some (pubUser user) })) := by
  refine ⟨fun h => ?_, fun user h hb => ?_, fun user h hb => ?_,
    fun he hp => ⟨fun h => ?_, fun user h hb => ?_, fun user h hb => ?_⟩⟩ <;>
    simp [login_p0, login_srv, h, *]

/-- Witness for C6: a successful part zero login on the example store. -/
theorem C6_login_behavior_witness :
    login_p0 (fun _ _ => true) (fun c => c.email) egDB ("a@x.com") ("pw") =
      { status := 200, message := "Login successful",
        token := some ("a@x.com"), user := some (pubUser egUser1) } :=
  (C6_login_behavior (fun _ _ => true) (fun c => c.email) egDB
    ("a@x.com") ("pw")).2.2.1 egUser1 (by decide) rfl

/-! ### Ownership-guarded mutation routes (part zero PUT and DELETE
/api/items/:id). -/

/-- JavaScript truthiness guard of the conditional field assignments: a
missing or empty string leaves the current value. -/
def setIf (cur : String) (v : Option String) : String :=
  match v with
  | none => cur
  | some s => if s = "" then cur else s

/-- Truthiness guard for the numeric price field: zero is falsy. -/
def setIfNum (cur : Rat) (v : Option Rat) : Rat :=
  match v with
  | none => cur
  | some q => if q = 0 then cur else q

/-- Request body of the update route: every field optional. -/
structure UpdateBody where
  name : Option String := none
  description : Option String := none
  category : Option String := none
  availability : Option String := none
  price : Option Rat := none
  photo : Option String := none
  deriving Repr, DecidableEq

/-- The conditional field assignments of the update handler, in source
order. -/
def applyUpdate (it : Item) (b : UpdateBody) : Item :=
  { it with
    name := setIf it.name b.name,
    description := setIf it.description b.description,
    category := setIf it.category b.category,
    availability := setIf it.availability b.availability,
    price := setIfNum it.price b.price,
    photo := setIf it.photo b.photo }

/-- Document validation run by item.save(): the required string fields are
nonempty and availability is one of the two enum values. -/
def itemValid (it : Item) : Prop :=
  it.name ≠ "" ∧ it.description ≠ "" ∧ it.category ≠ "" ∧
    (it.availability = "available" ∨ it.availability = "not-available")

instance (it : Item) : Decidable (itemValid it) := by
  unfold itemValid; exact inferInstance

/-- PUT /api/items/:id of the part zero variant: find the item (404 when
absent), answer 403 to any requester other than the owner before any field
assignment, otherwise assign the truthy body fields and save; a validation
failure raised by the save lands in the catch block as 500 with the store
unchanged. -/
def putItem (db : DB) (reqUserId iid : Nat) (b : UpdateBody) : DB × Resp :=
  match db.items.find? (fun it => it.id == iid) with
  | none => (db, { status := 404, message := "Item not found" })
  | some item =>
    if item.userId ≠ reqUserId then
      (db, { status := 403, message := "Unauthorized" })
    else
      if itemValid (applyUpdate item b) then
        ({ db with items := db.items.map (fun it =>
            if it.id = iid then applyUpdate item b else it) },
         { status := 200, message := "Item updated successfully" })
      else (db, { status := 500, message := "Error updating item" })

/-- DELETE /api/items/:id of the part zero variant: find the item (404 when
absent), answer 403 to any requester other than the owner, otherwise delete
the listing and decrement the listing counter of the requester. -/
def deleteItem (db : DB) (reqUserId iid : Nat) : DB × Resp :=
  match db.items.find? (fun it => it.id == iid) with
  | none => (db, { status := 404, message := "Item not found" })
  | some item =>
    if item.userId ≠ reqUserId then
      (db, { status := 403, message := "Unauthorized" })
    else
      ({ db with
         items := db.items.filter (fun it => it.id != iid),
         users := db.users.map (fun u =>
           if u.id = reqUserId then
             { u with totalItemsListed := u.totalItemsListed - 1 }
           else u) },
       { status := 200, message := "Item deleted successfully" })

/-- Claim C4: for a mutating request on an existing listing, a requester
other than the owner receives 403 with the store completely unchanged (the
ownership check precedes every field assignment, so a denied request
performs no partial mutation), while the owner succeeds: the update
rewrites the listing with the truthy body fields applied (for a body whose
result passes document validation) and the delete removes the listing. -/
theorem C4_ownership_guard (db : DB) (reqUserId iid : Nat) (b : UpdateBody)
    (item : Item)
    (hfind : db.items.find? (fun it => it.id == iid) = some item) :
    (item.userId ≠ reqUserId →
       putItem db reqUserId iid b =
         (db, { status := 403, message := "Unauthorized" }) ∧
       deleteItem db reqUserId iid =
         (db, { status := 403, message := "Unauthorized" })) ∧
    (item.userId = reqUserId →
       (itemValid (applyUpdate item b) →
          putItem db reqUserId iid b =
            ({ db with items := db.items.map (fun it =>
                if it.id = iid then applyUpdate item b else it) },
             { status := 200, message := "Item updated successfully" })) ∧
       deleteItem db reqUserId iid =
         ({ db with
            items := db.items.filter (fun it => it.id != iid),
            users := db.users.map (fun u =>
              if u.id = reqUserId then
                { u with totalItemsListed := u.totalItemsListed - 1 }
              else u) },
          { status := 200, message := "Item deleted successfully" })) := by
  refine ⟨fun hne => ?_, fun heq => ⟨fun hv => ?_, ?_⟩⟩
  · constructor
    · unfold putItem; simp only [hfind]; rw [if_pos hne]
    · unfold deleteItem; simp only [hfind]; rw [if_pos hne]
  · unfold putItem; simp only [hfind]
    rw [if_neg (by simp [heq]), if_pos hv]
  · unfold deleteItem; simp only [hfind]
    rw [if_neg (by simp [heq])]

/-- Witness for C4: a foreign requester is denied on the example listing
with the store unchanged, and the owner updates it successfully. -/
theorem C4_ownership_guard_witness :
    (putItem egDB 2 10 { name := some ("Cam2") } =
       (egDB, { status := 403, message := "Unauthorized" }) ∧
     deleteItem egDB 2 10 =
       (egDB, { status := 403, message := "Unauthorized" })) ∧
    putItem egDB 1 10 { name := some ("Cam2") } =
      ({ egDB with items := egDB.items.map (fun it =>
          if it.id = 10 then applyUpdate egItem { name := some ("Cam2") } else it) },
       { status := 200, message := "Item updated successfully" }) :=
  ⟨(C4_ownership_guard egDB 2 10 { name := some ("Cam2") } egItem
      (by decide)).1 (by decide),
   ((C4_ownership_guard egDB 1 10 { name := some ("Cam2") } egItem
      (by decide)).2 rfl).1 (by decide)⟩

/-! ### Signup (part zero and server.js variants) and email uniqueness. -/

/-- POST /api/auth/signup of the part zero variant: the duplicate check is
an exact findOne on the raw email (the part zero schema declares neither
lowercase nor trim on the email path), then the password is hashed and the
identity stored with the raw email. -/
def signup_p0 (bhash : String → String) (sign : Claims → String) (db : DB)
    (name email password phone : String) : DB × Resp :=
  if db.users.any (fun u => u.email == email) then
    (db, { status := 400, message := "Email already registered" })
  else
    ({ db with
       users := db.users ++
         [{ id := db.nextId, name := name, email := email,
            password := bhash password, phone := phone }],
       nextId := db.nextId + 1 },
     { status := 201, message := "User registered successfully",
       token := some (sign ⟨db.nextId, email⟩),
       user := some ⟨db.nextId, name, email, phone⟩ })

/-- POST /api/auth/signup of the server.js variant: field validations
first, then the duplicate check and the insert, both going through the
schema normalization of the email path. -/
def signup_srv (bhash : String → String) (sign : Claims → String) (db : DB)
    (name email password confirmPassword phone : String) : DB × Resp :=
  if name = "" ∨ email = "" ∨ password = "" ∨ confirmPassword = "" then
    (db, { status := 400, message := "Please provide all required fields" })
  else if password ≠ confirmPassword then
    (db, { status := 400, message := "Passwords do not match" })
  else if password.length < 6 then
    (db, { status := 400, message := "Password must be at least 6 characters" })
  else if db.users.any (fun u => u.email == normalizeEmail email) then
    (db, { status := 400, message := "Email already registered. Please login." })
  else
    ({ db with
       users := db.users ++
         [{ id := db.nextId, name := name, email := normalizeEmail email,
            password := bhash password, phone := phone }],
       nextId := db.nextId + 1 },
     { status := 201, message := "User registered successfully!",
       token := some (sign ⟨db.nextId, normalizeEmail email⟩),
       user := some ⟨db.nextId, name, normalizeEmail email, phone⟩ })

/-! Idempotence of the email normalization, needed to show that the
normalized store stays normalized across signups. -/

theorem toNat_ofNat_valid (n : Nat) (h : n.isValidChar) :
    (Char.ofNat n).toNat = n := by
  rw [Char.ofNat, dif_pos h]
  rfl

theorem lowerChar_idem (c : Char) : lowerChar (lowerChar c) = lowerChar c := by
  unfold lowerChar
  by_cases h : 65 ≤ c.toNat ∧ c.toNat ≤ 90
  · rw [if_pos h]
    have hv : (c.toNat + 32).isValidChar := Or.inl (by omega)
    rw [if_neg]
    rw [toNat_ofNat_valid _ hv]
    omega
  · rw [if_neg h, if_neg h]

theorem isSpaceChar_lowerChar (c : Char) :
    isSpaceChar (lowerChar c) = isSpaceChar c := by
  unfold lowerChar isSpaceChar
  by_cases h : 65 ≤ c.toNat ∧ c.toNat ≤ 90
  · rw [if_pos h]
    have hv : (c.toNat + 32).isValidChar := Or.inl (by omega)
    rw [toNat_ofNat_valid _ hv, Bool.eq_iff_iff]
    simp only [Bool.or_eq_true, beq_iff_eq]
    omega
  · rw [if_neg h]

theorem dropWhile_self (p : Char → Bool) (l : List Char) :
    (l.dropWhile p).dropWhile p = l.dropWhile p := by
  induction l with
  | nil => rfl
  | cons a t ih =>
    by_cases h : p a
    · simp [List.dropWhile_cons, h, ih]
    · simp [List.dropWhile_cons, h]

theorem head?_dropWhile_false (p : Char → Bool) (l : List Char) (a : Char)
    (h : (l.dropWhile p).head? = some a) : p a = false := by
  induction l with
  | nil => simp at h
  | cons b t ih =>
    by_cases hb : p b
    · rw [List.dropWhile_cons, if_pos hb] at h
      exact ih h
    · rw [List.dropWhile_cons, if_neg hb] at h
      simp at h
      rw [← h]
      exact Bool.eq_false_iff.mpr hb

theorem dropWhile_eq_self_of_head (p : Char → Bool) (l : List Char)
    (h : ∀ a, l.head? = some a → p a = false) : l.dropWhile p = l := by
  cases l with
  | nil => rfl
  | cons a t => rw [List.dropWhile_cons, if_neg (by simp [h a rfl])]

theorem getLast?_dropWhile (p : Char → Bool) (l : List Char)
    (h : l.dropWhile p ≠ []) : (l.dropWhile p).getLast? = l.getLast? := by
  induction l with
  | nil => exact absurd rfl h
  | cons a t ih =>
    by_cases ha : p a
    · rw [List.dropWhile_cons, if_pos ha] at h ⊢
      rw [ih h]
      have ht : t ≠ [] := by
        intro he
        rw [he] at h
        exact h rfl
      cases t with
      | nil => exact absurd rfl ht
      | cons b u => simp
    · rw [List.dropWhile_cons, if_neg ha]

theorem trimList_head (l : List Char) (a : Char)
    (h : (trimList l).head? = some a) : isSpaceChar a = false := by
  unfold trimList at h
  rw [List.head?_reverse] at h
  have hne : (l.dropWhile isSpaceChar).reverse.dropWhile isSpaceChar ≠ [] := by
    intro he
    rw [he] at h
    simp at h
  rw [getLast?_dropWhile _ _ hne, List.getLast?_reverse] at h
  exact head?_dropWhile_false _ _ _ h

theorem trimList_getLast (l : List Char) (a : Char)
    (h : (trimList l).getLast? = some a) : isSpaceChar a = false := by
  unfold trimList at h
  rw [List.getLast?_reverse] at h
  exact head?_dropWhile_false _ _ _ h

theorem trimList_idem (l : List Char) : trimList (trimList l) = trimList l := by
  have h1 : (trimList l).dropWhile isSpaceChar = trimList l :=
    dropWhile_eq_self_of_head _ _ (trimList_head l)
  have h2 : (trimList l).reverse.dropWhile isSpaceChar = (trimList l).reverse := by
    apply dropWhile_eq_self_of_head
    intro a ha
    rw [List.head?_reverse] at ha
    exact trimList_getLast l a ha
  calc trimList (trimList l)
      = (((trimList l).dropWhile isSpaceChar).reverse.dropWhile isSpaceChar).reverse := rfl
    _ = ((trimList l).reverse.dropWhile isSpaceChar).reverse := by rw [h1]
    _ = (trimList l).reverse.reverse := by rw [h2]
    _ = trimList l := List.reverse_reverse _

theorem dropWhile_map_lower (l : List Char) :
    (l.map lowerChar).dropWhile isSpaceChar =
      (l.dropWhile isSpaceChar).map lowerChar := by
  induction l with
  | nil => rfl
  | cons a t ih =>
    by_cases h : isSpaceChar a
    · simp [List.dropWhile_cons, isSpaceChar_lowerChar, h, ih]
    · simp [List.dropWhile_cons, isSpaceChar_lowerChar, h]

theorem trimList_map_lower (l : List Char) :
    trimList (l.map lowerChar) = (trimList l).map lowerChar := by
  unfold trimList
  rw [dropWhile_map_lower, ← List.map_reverse, dropWhile_map_lower, ← List.map_reverse]

theorem map_lowerChar_idem (l : List Char) :
    (l.map lowerChar).map lowerChar = l.map lowerChar := by
  rw [List.map_map]
  exact List.map_congr_left fun a _ => lowerChar_idem a

theorem normalizeEmail_idem (e : String) :
    normalizeEmail (normalizeEmail e) = normalizeEmail e := by
  show String.mk ((trimList ((trimList e.data).map lowerChar)).map lowerChar) =
    String.mk ((trimList e.data).map lowerChar)
  rw [trimList_map_lower, map_lowerChar_idem, trimList_idem]

/-- Shape of the server.js signup: either the store is unchanged (any
validation or duplicate failure) or no stored email equals the normalized
input and the normalized identity is appended. -/
theorem signup_srv_cases (bhash : String → String) (sign : Claims → String)
    (db : DB) (name email password confirmPassword phone : String) :
    (signup_srv bhash sign db name email password confirmPassword phone).1 = db ∨
    ((∀ u ∈ db.users, ¬u.email = normalizeEmail email) ∧
     (signup_srv bhash sign db name email password confirmPassword phone).1.users =
       db.users ++
         [{ id := db.nextId, name := name, email := normalizeEmail email,
            password := bhash password, phone := phone }]) := by
  unfold signup_srv
  split_ifs with h1 h2 h3 h4
  · exact Or.inl rfl
  · exact Or.inl rfl
  · exact Or.inl rfl
  · exact Or.inl rfl
  · refine Or.inr ⟨?_, rfl⟩
    intro u hu he
    exact h4 (List.any_eq_true.mpr ⟨u, hu, by simp [he]⟩)

/-- Empty store used by the signup scenarios. -/
def dbEmpty : DB := { users := [], items := [], reviews := [], nextId := 1 }

/-- Identity hashing stand-in for closed evaluations. -/
def bh0 : String → String := fun s => s

/-- Constant signer stand-in for closed evaluations. -/
def sg0 : Claims → String := fun _ => "tok"

/-- The part zero store after signing up a@x.com and then A@x.com. -/
def caseDupDB : DB :=
  (signup_p0 bh0 sg0 (signup_p0 bh0 sg0 dbEmpty ("A") ("a@x.com") ("secret1") ("1")).1
    ("B") ("A@x.com") ("secret2") ("2")).1

/-- The response of the second of those signups. -/
def caseDupResp : Resp :=
  (signup_p0 bh0 sg0 (signup_p0 bh0 sg0 dbEmpty ("A") ("a@x.com") ("secret1") ("1")).1
    ("B") ("A@x.com") ("secret2") ("2")).2

/-- Claim C7 counterexample: in the part zero variant the duplicate check is
an exact string comparison, so a second signup whose email differs from a
stored one only by case succeeds with 201 and persists a second identity
whose normalized email equals that of the first. -/
theorem C7_duplicate_email_cex :
    caseDupResp.status = 201 ∧ ¬caseDupResp.status = 400 ∧
      ∃ u ∈ caseDupDB.users, ∃ v ∈ caseDupDB.users,
        u.id ≠ v.id ∧ normalizeEmail u.email = normalizeEmail v.email := by
  decide

/-- Claim C7 as amended: the server.js variant (whose schema normalizes the
email path) enforces uniqueness up to normalization: over a store whose
emails are all normalized, a signup with valid fields whose normalized
email is already present fails with 400 and an unchanged store, and any
signup preserves both pairwise distinctness of the normalized emails and
normalization of every stored email.  The part zero variant checks only the
exact raw email, so identities differing in case or whitespace can coexist
there (see the counterexample). -/
theorem C7_email_uniqueness (bhash : String → String) (sign : Claims → String)
    (db : DB) (name email password confirmPassword phone : String)
    (hnorm : ∀ u ∈ db.users, u.email = normalizeEmail u.email) :
    (name ≠ "" → email ≠ "" → password ≠ "" → confirmPassword ≠ "" →
      password = confirmPassword → ¬password.length < 6 →
      (∃ u ∈ db.users, u.email = normalizeEmail email) →
      signup_srv bhash sign db name email password confirmPassword phone =
        (db, { status := 400, message := "Email already registered. Please login." })) ∧
    (List.Pairwise (fun u v => normalizeEmail u.email ≠ normalizeEmail v.email) db.users →
      List.Pairwise (fun u v => normalizeEmail u.email ≠ normalizeEmail v.email)
        (signup_srv bhash sign db name email password confirmPassword phone).1.users) ∧
    (∀ u ∈ (signup_srv bhash sign db name email password confirmPassword phone).1.users,
      u.email = normalizeEmail u.email) := by
  refine ⟨?_, ?_, ?_⟩
  · intro h1 h2 h3 h4 h5 h6 hex
    obtain ⟨u, hu, he⟩ := hex
    unfold signup_srv
    rw [if_neg (by simp [h1, h2, h3, h4]), if_neg (by simp [h5]), if_neg h6,
        if_pos (List.any_eq_true.mpr ⟨u, hu, by simp [he]⟩)]
  · intro hp
    rcases signup_srv_cases bhash sign db name email password confirmPassword phone
      with h | ⟨hnone, happ⟩
    · rw [h]
      exact hp
    · rw [happ, List.pairwise_append]
      refine ⟨hp, List.pairwise_singleton _ _, ?_⟩
      intro a ha b hb
      simp only [List.mem_singleton] at hb
      subst hb
      show normalizeEmail a.email ≠ normalizeEmail (normalizeEmail email)
      rw [normalizeEmail_idem, ← hnorm a ha]
      exact hnone a ha
  · intro u hu
    rcases signup_srv_cases bhash sign db name email password confirmPassword phone
      with h | ⟨hnone, happ⟩
    · rw [h] at hu
      exact hnorm u hu
    · rw [happ] at hu
      rcases List.mem_append.mp hu with h' | h'
      · exact hnorm u h'
      · simp only [List.mem_singleton] at h'
        subst h'
        show normalizeEmail email = normalizeEmail (normalizeEmail email)
        exact (normalizeEmail_idem email).symm

/-- Server.js store holding one identity with a normalized email. -/
def srvDB1 : DB :=
  (signup_srv bh0 sg0 dbEmpty ("A") ("a@x.com") ("secret1") ("secret1") ("1")).1

/-- Witness for the amended C7: a signup whose email differs from a stored
one by case and whitespace is rejected by the server.js variant. -/
theorem C7_email_uniqueness_witness :
    signup_srv bh0 sg0 srvDB1 ("B") (" A@x.com ") ("secret2") ("secret2") ("2") =
      (srvDB1, { status := 400, message := "Email already registered. Please login." }) :=
  (C7_email_uniqueness bh0 sg0 srvDB1 ("B") (" A@x.com ") ("secret2") ("secret2") ("2")
      (by decide)).1 (by decide) (by decide) (by decide) (by decide) (by decide)
    (by decide) (by decide)

end RentHub
